import Mathlib

/-!
Shallow embedding of the GoldSnake banking system (src/banco2.py).

Modelling choices:
- Python floats carrying money amounts are modelled as exact rationals (ℚ);
  the spec declares currency precision/rounding out of scope.
- `datetime.now()` is modelled as an explicit clock argument `now : Datetime`
  (an abstract tick count); `datetime.isoformat` is modelled as an injective
  rendering of that tick into a string.
- The global account-number counter `Conta.numero_conta_global` is threaded
  explicitly: construction takes the current counter and returns the new one.
- JSON dictionaries are modelled as Lean structures mirroring the exact dict
  shapes produced by the `to_dict` methods (well-formed documents: every key
  that `from_dict` would default is present).
- File I/O in `carregar_dados` is modelled by a `FileState`: the file is
  absent (Python `FileNotFoundError`), present but not valid JSON
  (`json.JSONDecodeError`), or a successfully parsed document. The printed
  error message in the invalid-JSON branch is modelled by the `erro` flag of
  the result. The uncaught `ValueError` raised when an account's owner CPF
  matches no client is modelled by returning `none`.
-/

namespace GoldSnake

/-- Abstract timestamp (a tick of the ambient clock `datetime.now()`). -/
abbrev Datetime := Nat

/-- Injective rendering of a timestamp, standing for `datetime.isoformat()`. -/
def isoformat (d : Datetime) : String := toString d

/-- The concrete class of a `Transacao` object: `Deposito` or `Saque`.
In the Python source direction is encoded by the subclass, not by sign. -/
inductive TipoTransacao
  | deposito
  | saque
deriving DecidableEq

/-- `Transacao`: stores the `valor` passed to the constructor and the
creation time (`self.data = datetime.now()`), plus its class tag. -/
structure Transacao where
  tipo : TipoTransacao
  valor : ℚ
  data : Datetime
deriving DecidableEq

/-- `Deposito(valor)` constructed at clock time `now`. -/
def Deposito (valor : ℚ) (now : Datetime) : Transacao :=
  ⟨TipoTransacao.deposito, valor, now⟩

/-- `Saque(valor)` constructed at clock time `now`. -/
def Saque (valor : ℚ) (now : Datetime) : Transacao :=
  ⟨TipoTransacao.saque, valor, now⟩

/-- `Historico`: the transaction log, `self.transacoes = []` at creation. -/
structure Historico where
  transacoes : List Transacao
deriving DecidableEq

/-- `Historico.__init__`. -/
def Historico.vazio : Historico := ⟨[]⟩

/-- `Historico.adicionar_transacao`: list append. -/
def Historico.adicionar_transacao (h : Historico) (t : Transacao) : Historico :=
  ⟨h.transacoes ++ [t]⟩

/-- `PessoaFisica`: client with CPF identity. The `Cliente.contas` list is
omitted: in the source it is only ever written by `adicionar_conta`, which no
code path calls, and `PessoaFisica.to_dict`/`from_dict` ignore it. -/
structure PessoaFisica where
  cpf : String
  nome : String
  data_nascimento : String
  endereco : String
deriving DecidableEq

/-- Base `Conta` object state. -/
structure Conta where
  saldo : ℚ
  agencia : String
  cliente : PessoaFisica
  numero : Nat
  historico : Historico
deriving DecidableEq

/-- `Conta.__init__`: takes and returns the global number counter
(`self.numero = Conta.numero_conta_global; Conta.numero_conta_global += 1`),
and starts with a fresh empty `Historico`. -/
def Conta.nova (cliente : PessoaFisica) (saldo : ℚ) (agencia : String)
    (counter : Nat) : Conta × Nat :=
  (⟨saldo, agencia, cliente, counter, Historico.vazio⟩, counter + 1)

/-- `Conta.sacar`. -/
def Conta.sacar (c : Conta) (valor : ℚ) (now : Datetime) : Bool × Conta :=
  if valor > c.saldo ∨ valor ≤ 0 then (false, c)
  else (true, { c with
                  saldo := c.saldo - valor,
                  historico := c.historico.adicionar_transacao (Saque valor now) })

/-- `Conta.depositar`. -/
def Conta.depositar (c : Conta) (valor : ℚ) (now : Datetime) : Bool × Conta :=
  if valor ≤ 0 then (false, c)
  else (true, { c with
                  saldo := c.saldo + valor,
                  historico := c.historico.adicionar_transacao (Deposito valor now) })

/-- `ContaCorrente`: checking account, adds `limite` and `limite_saques`. -/
structure ContaCorrente extends Conta where
  limite : ℚ
  limite_saques : Int
deriving DecidableEq

/-- `ContaCorrente.__init__`: delegates to `Conta.__init__` with the default
agencia `"0001"`. -/
def ContaCorrente.nova (cliente : PessoaFisica) (saldo : ℚ) (limite : ℚ)
    (limite_saques : Int) (counter : Nat) : ContaCorrente × Nat :=
  let r := Conta.nova cliente saldo "0001" counter
  (⟨r.1, limite, limite_saques⟩, r.2)

/-- `ContaCorrente.sacar`: the daily-limit check comes first, then the
amount/funds check against `saldo + limite`. -/
def ContaCorrente.sacar (c : ContaCorrente) (valor : ℚ) (now : Datetime) :
    Bool × ContaCorrente :=
  if c.limite_saques ≤ 0 then (false, c)
  else if valor > c.saldo + c.limite ∨ valor ≤ 0 then (false, c)
  else (true, { c with
                  saldo := c.saldo - valor,
                  limite_saques := c.limite_saques - 1,
                  historico := c.historico.adicionar_transacao (Saque valor now) })

/-- `ContaCorrente` inherits `depositar` unchanged from `Conta`. -/
def ContaCorrente.depositar (c : ContaCorrente) (valor : ℚ) (now : Datetime) :
    Bool × ContaCorrente :=
  let r := c.toConta.depositar valor now
  (r.1, { c with toConta := r.2 })

/-! Serialization: the to_dict and from_dict methods. -/

/-- Shape of one entry of `historico["transacoes"]` in the JSON document. -/
structure TransacaoDict where
  valor : ℚ
  data : String
deriving DecidableEq

/-- Shape of the `historico` value in the JSON document. -/
structure HistoricoDict where
  transacoes : List TransacaoDict
deriving DecidableEq

/-- `Historico.to_dict`: writes `t.valor` as stored (note: the stored valor,
not a sign-adjusted one) and the isoformat rendering of `t.data`. -/
def Historico.to_dict (h : Historico) : HistoricoDict :=
  ⟨h.transacoes.map fun t => ⟨t.valor, isoformat t.data⟩⟩

/-- `Historico.from_dict`: `Deposito(float(v))` when `v > 0`, else
`Saque(-float(v))`; the persisted `data` field is not read, so each rebuilt
transaction is stamped with the current clock `now`. -/
def Historico.from_dict (d : HistoricoDict) (now : Datetime) : Historico :=
  ⟨d.transacoes.map fun t =>
    if t.valor > 0 then Deposito t.valor now else Saque (-t.valor) now⟩

/-- Shape of one entry of `usuarios` in the JSON document. -/
structure UsuarioDict where
  cpf : String
  nome : String
  data_nascimento : String
  endereco : String
deriving DecidableEq

/-- `PessoaFisica.to_dict`. -/
def PessoaFisica.to_dict (p : PessoaFisica) : UsuarioDict :=
  ⟨p.cpf, p.nome, p.data_nascimento, p.endereco⟩

/-- `PessoaFisica.from_dict`. -/
def PessoaFisica.from_dict (d : UsuarioDict) : PessoaFisica :=
  ⟨d.cpf, d.nome, d.data_nascimento, d.endereco⟩

/-- Shape of one entry of `contas` in the JSON document, as written by
`ContaCorrente.to_dict`. -/
structure ContaDict where
  numero : Nat
  cpf : String
  saldo : ℚ
  limite : ℚ
  limite_saques : Int
  historico : HistoricoDict
deriving DecidableEq

/-- `ContaCorrente.to_dict`. -/
def ContaCorrente.to_dict (c : ContaCorrente) : ContaDict :=
  ⟨c.numero, c.cliente.cpf, c.saldo, c.limite, c.limite_saques, c.historico.to_dict⟩

/-- `ContaCorrente.from_dict`: resolves the owner by CPF among the already
reconstructed clients (`ValueError`, modelled as `none`, when absent), then
calls the constructor with the persisted `saldo`, `limite`, `limite_saques`.
The persisted `numero` and `historico` fields are not read: the constructor
assigns the next counter value and a fresh empty log. -/
def ContaCorrente.from_dict (d : ContaDict) (clientes : List PessoaFisica)
    (counter : Nat) : Option (ContaCorrente × Nat) :=
  match clientes.find? (fun c => c.cpf == d.cpf) with
  | none => none
  | some cliente => some (ContaCorrente.nova cliente d.saldo d.limite d.limite_saques counter)

/-- The whole JSON document written by `salvar_dados`. -/
structure BancoData where
  usuarios : List UsuarioDict
  contas : List ContaDict
deriving DecidableEq

/-- `salvar_dados`: serializes every client and every account into one
document (the file write itself is outside the model). -/
def salvar_dados (usuarios : List PessoaFisica) (contas : List ContaCorrente) :
    BancoData :=
  ⟨usuarios.map PessoaFisica.to_dict, contas.map ContaCorrente.to_dict⟩

/-- State of the persisted file as `carregar_dados` finds it. -/
inductive FileState
  | absent
  | invalid
  | valid (doc : BancoData)
deriving DecidableEq

/-- What `carregar_dados` hands back to `main`: whether an error message was
printed, and the two collections. -/
structure LoadResult where
  erro : Bool
  usuarios : List PessoaFisica
  contas : List ContaCorrente
deriving DecidableEq

/-- The list comprehension `[ContaCorrente.from_dict(d, usuarios) for d in
data.get("contas", [])]`, threading the account-number counter; `none` when
some record's owner lookup raises. -/
def carregar_contas (ds : List ContaDict) (usuarios : List PessoaFisica)
    (counter : Nat) : Option (List ContaCorrente × Nat) :=
  match ds with
  | [] => some ([], counter)
  | d :: rest =>
    match ContaCorrente.from_dict d usuarios counter with
    | none => none
    | some (c, counter') =>
      match carregar_contas rest usuarios counter' with
      | none => none
      | some (cs, counter'') => some (c :: cs, counter'')

/-- `carregar_dados`: absent file → empty collections, no message; invalid
JSON → error message and empty collections; valid document → rebuild clients
then accounts (an unresolvable owner CPF raises out of the function: `none`). -/
def carregar_dados (fs : FileState) (counter : Nat) : Option (LoadResult × Nat) :=
  match fs with
  | FileState.absent => some (⟨false, [], []⟩, counter)
  | FileState.invalid => some (⟨true, [], []⟩, counter)
  | FileState.valid doc =>
    let usuarios := doc.usuarios.map PessoaFisica.from_dict
    match carregar_contas doc.contas usuarios counter with
    | none => none
    | some (contas, counter') => some (⟨false, usuarios, contas⟩, counter')

/-! Operation sequences. -/

/-- One user-level operation on an account: a deposit or a withdrawal request
of a given amount at a given clock time. -/
inductive Op
  | dep (valor : ℚ) (now : Datetime)
  | saq (valor : ℚ) (now : Datetime)
deriving DecidableEq

/-- Run a sequence of deposit/withdraw calls on a base account, keeping the
resulting state (failed calls leave the account as they found it). -/
def Conta.run (c : Conta) : List Op → Conta
  | [] => c
  | Op.dep v t :: rest => Conta.run (c.depositar v t).2 rest
  | Op.saq v t :: rest => Conta.run (c.sacar v t).2 rest

/-- Run a sequence of deposit/withdraw calls on a checking account. -/
def ContaCorrente.run (c : ContaCorrente) : List Op → ContaCorrente
  | [] => c
  | Op.dep v t :: rest => ContaCorrente.run (c.depositar v t).2 rest
  | Op.saq v t :: rest => ContaCorrente.run (c.sacar v t).2 rest

/-- Whether a transaction stores a strictly positive `valor`. -/
def Transacao.valorPositivo (tr : Transacao) : Bool := decide (0 < tr.valor)

/-! Concrete fixtures used by witnesses and counterexamples. -/

/-- A well-formed client (11-digit CPF). -/
def clienteA : PessoaFisica :=
  ⟨"12345678901", "Ana Silva", "01/01/2000", "Rua A, 1"⟩

/-- A checking account for `clienteA`, created with a fresh counter (gets
numero 1) and defaults `limite = 500`, `limite_saques = 3`. -/
def contaA0 : ContaCorrente := (ContaCorrente.nova clienteA 0 500 3 1).1

/-- `contaA0` after a successful deposit of 100 at clock tick 5. -/
def contaA : ContaCorrente := (contaA0.depositar 100 5).2

/-- A base account with saldo 100 (numero 1, fresh counter). -/
def contaBase : Conta := (Conta.nova clienteA 100 "0001" 1).1

/-- A checking account whose daily withdrawal allowance is exhausted. -/
def contaSemSaques : ContaCorrente := (ContaCorrente.nova clienteA 1000 500 0 1).1

/-! Helper lemmas. -/

theorem conta_dep_saldo_ge (c : Conta) (v : ℚ) (t : Datetime) (h : 0 ≤ c.saldo) :
    0 ≤ (c.depositar v t).2.saldo := by
  unfold Conta.depositar
  by_cases hv : v ≤ 0
  · rw [if_pos hv]; exact h
  · rw [if_neg hv]
    push_neg at hv
    show 0 ≤ c.saldo + v
    linarith

theorem conta_saq_saldo_ge (c : Conta) (v : ℚ) (t : Datetime) (h : 0 ≤ c.saldo) :
    0 ≤ (c.sacar v t).2.saldo := by
  unfold Conta.sacar
  by_cases hv : v > c.saldo ∨ v ≤ 0
  · rw [if_pos hv]; exact h
  · rw [if_neg hv]
    push_neg at hv
    show 0 ≤ c.saldo - v
    have h1 := hv.1
    linarith

theorem conta_run_saldo_nonneg (c : Conta) (ops : List Op) (h : 0 ≤ c.saldo) :
    0 ≤ (Conta.run c ops).saldo := by
  induction ops generalizing c with
  | nil => exact h
  | cons op rest ih =>
    cases op with
    | dep v t => exact ih _ (conta_dep_saldo_ge c v t h)
    | saq v t => exact ih _ (conta_saq_saldo_ge c v t h)

theorem cc_dep_limite (c : ContaCorrente) (v : ℚ) (t : Datetime) :
    (c.depositar v t).2.limite = c.limite := rfl

theorem cc_saq_limite (c : ContaCorrente) (v : ℚ) (t : Datetime) :
    (c.sacar v t).2.limite = c.limite := by
  unfold ContaCorrente.sacar
  by_cases hs : c.limite_saques ≤ 0
  · rw [if_pos hs]
  · rw [if_neg hs]
    by_cases hv : v > c.saldo + c.limite ∨ v ≤ 0
    · rw [if_pos hv]
    · rw [if_neg hv]

theorem cc_dep_saldo_ge (c : ContaCorrente) (v : ℚ) (t : Datetime)
    (h : -c.limite ≤ c.saldo) : -c.limite ≤ (c.depositar v t).2.saldo := by
  show -c.limite ≤ (c.toConta.depositar v t).2.saldo
  unfold Conta.depositar
  by_cases hv : v ≤ 0
  · rw [if_pos hv]; exact h
  · rw [if_neg hv]
    push_neg at hv
    show -c.limite ≤ c.saldo + v
    linarith

theorem cc_saq_saldo_ge (c : ContaCorrente) (v : ℚ) (t : Datetime)
    (h : -c.limite ≤ c.saldo) : -c.limite ≤ (c.sacar v t).2.saldo := by
  unfold ContaCorrente.sacar
  by_cases hs : c.limite_saques ≤ 0
  · rw [if_pos hs]; exact h
  · rw [if_neg hs]
    by_cases hv : v > c.saldo + c.limite ∨ v ≤ 0
    · rw [if_pos hv]; exact h
    · rw [if_neg hv]
      push_neg at hv
      show -c.limite ≤ c.saldo - v
      have h1 := hv.1
      linarith

theorem cc_run_floor (c : ContaCorrente) (ops : List Op) (h : -c.limite ≤ c.saldo) :
    -c.limite ≤ (ContaCorrente.run c ops).saldo := by
  induction ops generalizing c with
  | nil => exact h
  | cons op rest ih =>
    cases op with
    | dep v t =>
      have h2 : -(c.depositar v t).2.limite ≤ (c.depositar v t).2.saldo := by
        rw [cc_dep_limite]
        exact cc_dep_saldo_ge c v t h
      have h3 := ih _ h2
      rwa [cc_dep_limite] at h3
    | saq v t =>
      have h2 : -(c.sacar v t).2.limite ≤ (c.sacar v t).2.saldo := by
        rw [cc_saq_limite]
        exact cc_saq_saldo_ge c v t h
      have h3 := ih _ h2
      rwa [cc_saq_limite] at h3

theorem conta_dep_all_pos (c : Conta) (v : ℚ) (t : Datetime)
    (h : c.historico.transacoes.all Transacao.valorPositivo = true) :
    (c.depositar v t).2.historico.transacoes.all Transacao.valorPositivo = true := by
  unfold Conta.depositar
  by_cases hv : v ≤ 0
  · rw [if_pos hv]; exact h
  · rw [if_neg hv]
    show (c.historico.transacoes ++ [Deposito v t]).all Transacao.valorPositivo = true
    rw [List.all_append]
    simp [h, Transacao.valorPositivo, Deposito]
    exact not_le.mp hv

theorem conta_saq_all_pos (c : Conta) (v : ℚ) (t : Datetime)
    (h : c.historico.transacoes.all Transacao.valorPositivo = true) :
    (c.sacar v t).2.historico.transacoes.all Transacao.valorPositivo = true := by
  unfold Conta.sacar
  by_cases hv : v > c.saldo ∨ v ≤ 0
  · rw [if_pos hv]; exact h
  · rw [if_neg hv]
    push_neg at hv
    show (c.historico.transacoes ++ [Saque v t]).all Transacao.valorPositivo = true
    rw [List.all_append]
    simp [h, Transacao.valorPositivo, Saque]
    exact hv.2

theorem conta_run_all_pos (c : Conta) (ops : List Op)
    (h : c.historico.transacoes.all Transacao.valorPositivo = true) :
    (Conta.run c ops).historico.transacoes.all Transacao.valorPositivo = true := by
  induction ops generalizing c with
  | nil => exact h
  | cons op rest ih =>
    cases op with
    | dep v t => exact ih _ (conta_dep_all_pos c v t h)
    | saq v t => exact ih _ (conta_saq_all_pos c v t h)

theorem cc_dep_all_pos (c : ContaCorrente) (v : ℚ) (t : Datetime)
    (h : c.historico.transacoes.all Transacao.valorPositivo = true) :
    (c.depositar v t).2.historico.transacoes.all Transacao.valorPositivo = true := by
  show (c.toConta.depositar v t).2.historico.transacoes.all Transacao.valorPositivo = true
  exact conta_dep_all_pos c.toConta v t h

theorem cc_saq_all_pos (c : ContaCorrente) (v : ℚ) (t : Datetime)
    (h : c.historico.transacoes.all Transacao.valorPositivo = true) :
    (c.sacar v t).2.historico.transacoes.all Transacao.valorPositivo = true := by
  unfold ContaCorrente.sacar
  by_cases hs : c.limite_saques ≤ 0
  · rw [if_pos hs]; exact h
  · rw [if_neg hs]
    by_cases hv : v > c.saldo + c.limite ∨ v ≤ 0
    · rw [if_pos hv]; exact h
    · rw [if_neg hv]
      push_neg at hv
      show (c.historico.transacoes ++ [Saque v t]).all Transacao.valorPositivo = true
      rw [List.all_append]
      simp [h, Transacao.valorPositivo, Saque]
      exact hv.2

theorem cc_run_all_pos (c : ContaCorrente) (ops : List Op)
    (h : c.historico.transacoes.all Transacao.valorPositivo = true) :
    (ContaCorrente.run c ops).historico.transacoes.all Transacao.valorPositivo = true := by
  induction ops generalizing c with
  | nil => exact h
  | cons op rest ih =>
    cases op with
    | dep v t => exact ih _ (cc_dep_all_pos c v t h)
    | saq v t => exact ih _ (cc_saq_all_pos c v t h)

/-! Claim theorems. -/

/-- C1: at a concrete well-formed input (one client, one checking account with
a single deposit of 100 in its log), saving with `salvar_dados` and reloading
with `carregar_dados` keeps the balance and the owner CPF linkage but yields an
account whose transaction log is EMPTY, although the saved account's log held
one (amount, timestamp) pair: `ContaCorrente.from_dict` never reads the
persisted `historico` (nor does anything call `Historico.from_dict`), so the
round-trip does not reproduce transaction histories as the claim states. -/
theorem load_save_drops_transactions :
    contaA.historico.transacoes = [Deposito 100 5] ∧
    carregar_dados (FileState.valid (salvar_dados [clienteA] [contaA])) 1 =
      some (⟨false, [clienteA], [(ContaCorrente.nova clienteA contaA.saldo 500 3 1).1]⟩, 2) ∧
    ((ContaCorrente.nova clienteA contaA.saldo 500 3 1).1).historico.transacoes = [] :=
  ⟨by decide, rfl, rfl⟩

/-- C2 counterexample: a successful withdrawal of 50 from a base account with
balance 100 appends exactly one transaction, but the appended entry's stored
amount is 50, which is not negative — the sign does not encode the
withdrawal direction. -/
theorem saque_appends_nonnegative_valor :
    (contaBase.sacar 50 3).1 = true ∧
    (contaBase.sacar 50 3).2.historico.transacoes =
      contaBase.historico.transacoes ++ [Saque 50 3] ∧
    ¬ ((Saque 50 3).valor < 0) := by decide

/-- C2 (amended): every successful deposit or withdrawal appends exactly one
transaction to the log; the entry stores the operation's strictly positive
amount, and the direction is carried by the entry's class (`Deposito` for
deposits, `Saque` for withdrawals), not by the sign of the stored amount. -/
theorem successful_op_appends_one_tagged_entry :
    (∀ (c : Conta) (v : ℚ) (t : Datetime), (c.depositar v t).1 = true →
        (c.depositar v t).2.historico.transacoes =
          c.historico.transacoes ++ [Deposito v t] ∧ 0 < v) ∧
    (∀ (c : Conta) (v : ℚ) (t : Datetime), (c.sacar v t).1 = true →
        (c.sacar v t).2.historico.transacoes =
          c.historico.transacoes ++ [Saque v t] ∧ 0 < v) ∧
    (∀ (c : ContaCorrente) (v : ℚ) (t : Datetime), (c.depositar v t).1 = true →
        (c.depositar v t).2.historico.transacoes =
          c.historico.transacoes ++ [Deposito v t] ∧ 0 < v) ∧
    (∀ (c : ContaCorrente) (v : ℚ) (t : Datetime), (c.sacar v t).1 = true →
        (c.sacar v t).2.historico.transacoes =
          c.historico.transacoes ++ [Saque v t] ∧ 0 < v) := by
  refine ⟨fun c v t hc => ?_, fun c v t hc => ?_, fun c v t hc => ?_, fun c v t hc => ?_⟩
  · unfold Conta.depositar at hc ⊢
    by_cases hv : v ≤ 0
    · rw [if_pos hv] at hc; exact absurd hc (by simp)
    · rw [if_neg hv]
      exact ⟨rfl, not_le.mp hv⟩
  · unfold Conta.sacar at hc ⊢
    by_cases hv : v > c.saldo ∨ v ≤ 0
    · rw [if_pos hv] at hc; exact absurd hc (by simp)
    · rw [if_neg hv]
      push_neg at hv
      exact ⟨rfl, hv.2⟩
  · show (c.toConta.depositar v t).2.historico.transacoes =
        c.toConta.historico.transacoes ++ [Deposito v t] ∧ 0 < v
    replace hc : (c.toConta.depositar v t).1 = true := hc
    unfold Conta.depositar at hc ⊢
    by_cases hv : v ≤ 0
    · rw [if_pos hv] at hc; exact absurd hc (by simp)
    · rw [if_neg hv]
      exact ⟨rfl, not_le.mp hv⟩
  · unfold ContaCorrente.sacar at hc ⊢
    by_cases hs : c.limite_saques ≤ 0
    · rw [if_pos hs] at hc; exact absurd hc (by simp)
    · rw [if_neg hs] at hc ⊢
      by_cases hv : v > c.saldo + c.limite ∨ v ≤ 0
      · rw [if_pos hv] at hc; exact absurd hc (by simp)
      · rw [if_neg hv]
        push_neg at hv
        exact ⟨rfl, hv.2⟩

/-- C2 witness: the amended theorem applied to concrete successful calls. -/
theorem successful_op_appends_one_tagged_entry_w :
    ((Conta.depositar contaBase 40 1).2.historico.transacoes =
        contaBase.historico.transacoes ++ [Deposito 40 1] ∧ (0:ℚ) < 40) ∧
    ((Conta.sacar contaBase 50 2).2.historico.transacoes =
        contaBase.historico.transacoes ++ [Saque 50 2] ∧ (0:ℚ) < 50) ∧
    ((ContaCorrente.depositar contaA0 40 3).2.historico.transacoes =
        contaA0.historico.transacoes ++ [Deposito 40 3] ∧ (0:ℚ) < 40) ∧
    ((ContaCorrente.sacar contaA0 60 4).2.historico.transacoes =
        contaA0.historico.transacoes ++ [Saque 60 4] ∧ (0:ℚ) < 60) :=
  ⟨successful_op_appends_one_tagged_entry.1 contaBase 40 1 (by decide),
   successful_op_appends_one_tagged_entry.2.1 contaBase 50 2 (by decide),
   successful_op_appends_one_tagged_entry.2.2.1 contaA0 40 3 (by decide),
   successful_op_appends_one_tagged_entry.2.2.2 contaA0 60 4 (by
     show (ContaCorrente.sacar contaA0 60 4).1 = true
     norm_num [ContaCorrente.sacar, contaA0, ContaCorrente.nova, Conta.nova])⟩

/-- C3: a base account whose balance starts at or above 0 keeps a nonnegative
balance under any sequence of deposit and withdraw calls, and a withdrawal
whose amount exceeds the current balance is rejected with no state change. -/
theorem conta_saldo_never_negative (c : Conta) (ops : List Op) (h : 0 ≤ c.saldo) :
    0 ≤ (Conta.run c ops).saldo ∧
    ∀ (v : ℚ) (t : Datetime), c.saldo < v → c.sacar v t = (false, c) := by
  refine ⟨conta_run_saldo_nonneg c ops h, fun v t hv => ?_⟩
  unfold Conta.sacar
  rw [if_pos (Or.inl hv)]

/-- C3 witness: the theorem at a concrete account with balance 100. -/
theorem conta_saldo_never_negative_w :
    0 ≤ (Conta.run contaBase [Op.dep 40 1, Op.saq 70 2]).saldo ∧
    Conta.sacar contaBase 150 3 = (false, contaBase) :=
  ⟨(conta_saldo_never_negative contaBase [Op.dep 40 1, Op.saq 70 2] (by decide)).1,
   (conta_saldo_never_negative contaBase [Op.dep 40 1, Op.saq 70 2] (by decide)).2
     150 3 (by decide)⟩

/-- C4: a checking account whose balance starts at or above `-limite` never
falls below `-limite` under any sequence of deposit and withdraw calls, and a
withdrawal with amount exceeding `saldo + limite` is rejected with no state
change. -/
theorem contacorrente_saldo_floor (c : ContaCorrente) (ops : List Op)
    (h : -c.limite ≤ c.saldo) :
    -c.limite ≤ (ContaCorrente.run c ops).saldo ∧
    ∀ (v : ℚ) (t : Datetime), c.saldo + c.limite < v → c.sacar v t = (false, c) := by
  refine ⟨cc_run_floor c ops h, fun v t hv => ?_⟩
  unfold ContaCorrente.sacar
  by_cases hs : c.limite_saques ≤ 0
  · rw [if_pos hs]
  · rw [if_neg hs, if_pos (Or.inl hv)]

/-- C4 witness: the theorem at a concrete checking account (saldo 0,
limite 500). -/
theorem contacorrente_saldo_floor_w :
    -contaA0.limite ≤ (ContaCorrente.run contaA0 [Op.saq 400 1]).saldo ∧
    ContaCorrente.sacar contaA0 600 2 = (false, contaA0) :=
  ⟨(contacorrente_saldo_floor contaA0 [Op.saq 400 1] (by decide)).1,
   (contacorrente_saldo_floor contaA0 [Op.saq 400 1] (by decide)).2 600 2 (by
     show contaA0.saldo + contaA0.limite < 600
     norm_num [contaA0, ContaCorrente.nova, Conta.nova])⟩

/-- C5: a successful checking withdrawal decrements `limite_saques` by exactly
1, and whenever `limite_saques ≤ 0` every withdrawal request returns false and
leaves the whole account state unchanged, regardless of amount, balance and
overdraft (the daily-limit rejection holds no matter what the funds check
would say). -/
theorem contacorrente_limite_saques_spec (c : ContaCorrente) (v : ℚ) (t : Datetime) :
    ((c.sacar v t).1 = true → (c.sacar v t).2.limite_saques = c.limite_saques - 1) ∧
    (c.limite_saques ≤ 0 → c.sacar v t = (false, c)) := by
  unfold ContaCorrente.sacar
  by_cases hs : c.limite_saques ≤ 0
  · rw [if_pos hs]
    exact ⟨fun hc => Bool.noConfusion hc, fun _ => rfl⟩
  · rw [if_neg hs]
    by_cases hv : v > c.saldo + c.limite ∨ v ≤ 0
    · rw [if_pos hv]
      exact ⟨fun hc => Bool.noConfusion hc, fun hs0 => absurd hs0 hs⟩
    · rw [if_neg hv]
      exact ⟨fun _ => rfl, fun hs0 => absurd hs0 hs⟩

/-- C5 witness: a successful withdrawal decrements the counter 3 → 2; with the
counter at 0 a withdrawal of 10 from a rich account is rejected unchanged. -/
theorem contacorrente_limite_saques_spec_w :
    (ContaCorrente.sacar contaA0 60 2).2.limite_saques = contaA0.limite_saques - 1 ∧
    ContaCorrente.sacar contaSemSaques 10 2 = (false, contaSemSaques) :=
  ⟨(contacorrente_limite_saques_spec contaA0 60 2).1 (by
      show (ContaCorrente.sacar contaA0 60 2).1 = true
      norm_num [ContaCorrente.sacar, contaA0, ContaCorrente.nova, Conta.nova]),
   (contacorrente_limite_saques_spec contaSemSaques 10 2).2 (by decide)⟩

/-- C6: a deposit fails exactly when the amount is ≤ 0 and a base withdrawal
fails exactly when the amount is ≤ 0 or exceeds the balance; every failed
deposit or withdrawal (on base and checking accounts alike) returns the
account completely unchanged — balance, log and `limite_saques` included. -/
theorem failed_ops_leave_state_unchanged :
    (∀ (c : Conta) (v : ℚ) (t : Datetime),
        ((c.depositar v t).1 = false ↔ v ≤ 0) ∧
        ((c.depositar v t).1 = false → c.depositar v t = (false, c))) ∧
    (∀ (c : Conta) (v : ℚ) (t : Datetime),
        ((c.sacar v t).1 = false ↔ v > c.saldo ∨ v ≤ 0) ∧
        ((c.sacar v t).1 = false → c.sacar v t = (false, c))) ∧
    (∀ (c : ContaCorrente) (v : ℚ) (t : Datetime),
        ((c.depositar v t).1 = false ↔ v ≤ 0) ∧
        ((c.depositar v t).1 = false → c.depositar v t = (false, c))) ∧
    (∀ (c : ContaCorrente) (v : ℚ) (t : Datetime),
        ((c.sacar v t).1 = false → c.sacar v t = (false, c))) := by
  refine ⟨fun c v t => ?_, fun c v t => ?_, fun c v t => ?_, fun c v t => ?_⟩
  · unfold Conta.depositar
    by_cases hv : v ≤ 0
    · rw [if_pos hv]
      exact ⟨⟨fun _ => hv, fun _ => rfl⟩, fun _ => rfl⟩
    · rw [if_neg hv]
      exact ⟨⟨fun hc => Bool.noConfusion hc, fun hvv => absurd hvv hv⟩,
             fun hc => Bool.noConfusion hc⟩
  · unfold Conta.sacar
    by_cases hv : v > c.saldo ∨ v ≤ 0
    · rw [if_pos hv]
      exact ⟨⟨fun _ => hv, fun _ => rfl⟩, fun _ => rfl⟩
    · rw [if_neg hv]
      exact ⟨⟨fun hc => Bool.noConfusion hc, fun hvv => absurd hvv hv⟩,
             fun hc => Bool.noConfusion hc⟩
  · constructor
    · show (c.toConta.depositar v t).1 = false ↔ v ≤ 0
      unfold Conta.depositar
      by_cases hv : v ≤ 0
      · rw [if_pos hv]
        exact ⟨fun _ => hv, fun _ => rfl⟩
      · rw [if_neg hv]
        exact ⟨fun hc => Bool.noConfusion hc, fun hvv => absurd hvv hv⟩
    · intro hc
      replace hc : (c.toConta.depositar v t).1 = false := hc
      have hbase : c.toConta.depositar v t = (false, c.toConta) := by
        unfold Conta.depositar at hc ⊢
        by_cases hv : v ≤ 0
        · rw [if_pos hv]
        · rw [if_neg hv] at hc
          exact Bool.noConfusion hc
      show ((c.toConta.depositar v t).1,
            { c with toConta := (c.toConta.depositar v t).2 }) = (false, c)
      rw [hbase]
  · unfold ContaCorrente.sacar
    by_cases hs : c.limite_saques ≤ 0
    · rw [if_pos hs]
      exact fun _ => rfl
    · rw [if_neg hs]
      by_cases hv : v > c.saldo + c.limite ∨ v ≤ 0
      · rw [if_pos hv]
        exact fun _ => rfl
      · rw [if_neg hv]
        exact fun hc => Bool.noConfusion hc

/-- C6 witness: concrete failed calls of each kind leave the account as it
was. -/
theorem failed_ops_leave_state_unchanged_w :
    Conta.depositar contaBase (-5) 1 = (false, contaBase) ∧
    Conta.sacar contaBase 150 2 = (false, contaBase) ∧
    ContaCorrente.depositar contaA0 0 3 = (false, contaA0) ∧
    ContaCorrente.sacar contaSemSaques 10 4 = (false, contaSemSaques) :=
  ⟨(failed_ops_leave_state_unchanged.1 contaBase (-5) 1).2 (by decide),
   (failed_ops_leave_state_unchanged.2.1 contaBase 150 2).2 (by decide),
   (failed_ops_leave_state_unchanged.2.2.1 contaA0 0 3).2 (by decide),
   failed_ops_leave_state_unchanged.2.2.2 contaSemSaques 10 4 (by decide)⟩

/-- C7: at the failing input, `Historico.to_dict` serializes a withdrawal
`Saque 50` with `valor = 50` (positive, not the claimed signed negative
amount), so `Historico.from_dict` — which does follow the claimed
`valor > 0 → deposit` rule — reconstructs it as a `Deposito`: the serializer
contradicts its own deserializer. -/
theorem to_dict_saque_positive_divergence :
    (Historico.to_dict ⟨[Saque 50 7]⟩).transacoes = [⟨50, isoformat 7⟩] ∧
    ¬ ((50:ℚ) < 0) ∧
    Historico.from_dict (Historico.to_dict ⟨[Saque 50 7]⟩) 9 = ⟨[Deposito 50 9]⟩ ∧
    (Deposito 50 9).tipo ≠ TipoTransacao.saque := by decide

/-- C8 counterexample: loading a persisted record whose `numero` is 7 with the
global counter at 1 yields an account numbered 1, not 7: the persisted number
is not kept verbatim. -/
theorem from_dict_ignores_numero :
    (ContaCorrente.from_dict ⟨7, "12345678901", 0, 500, 3, ⟨[]⟩⟩ [clienteA] 1).map
      (fun p => p.1.numero) = some 1 ∧ (1 : Nat) ≠ 7 := by decide

/-- C8 (amended): `ContaCorrente.from_dict` ignores the persisted `numero`
field entirely: whenever it succeeds, the loaded account's number is the
current value of the global counter, and the counter advances by one — for any
persisted record, whatever its stored `numero`. -/
theorem from_dict_assigns_counter_numero (d : ContaDict)
    (clientes : List PessoaFisica) (k : Nat) (c : ContaCorrente) (k' : Nat)
    (h : ContaCorrente.from_dict d clientes k = some (c, k')) :
    c.numero = k ∧ k' = k + 1 := by
  unfold ContaCorrente.from_dict at h
  cases hf : clientes.find? (fun cl => cl.cpf == d.cpf) with
  | none => rw [hf] at h; exact Option.noConfusion h
  | some cliente =>
    rw [hf] at h
    injection h with h2
    rw [Prod.ext_iff] at h2
    obtain ⟨hc, hk⟩ := h2
    subst hc
    subst hk
    exact ⟨rfl, rfl⟩

/-- C8 witness: the amended theorem at a record with persisted numero 7 loaded
under counter 5. -/
theorem from_dict_assigns_counter_numero_w :
    ((ContaCorrente.nova clienteA 0 500 3 5).1).numero = 5 ∧ (6 : Nat) = 5 + 1 :=
  from_dict_assigns_counter_numero ⟨7, "12345678901", 0, 500, 3, ⟨[]⟩⟩ [clienteA] 5
    ((ContaCorrente.nova clienteA 0 500 3 5).1) 6 (by decide)

/-- C9: loading from an absent file yields empty client and account
collections with no error reported, and loading from an existing file that is
not valid JSON reports a load error and also yields empty collections — in
both cases exactly the empty collections, never partial data. -/
theorem carregar_missing_or_invalid_empty (k : Nat) :
    carregar_dados FileState.absent k = some (⟨false, [], []⟩, k) ∧
    carregar_dados FileState.invalid k = some (⟨true, [], []⟩, k) :=
  ⟨rfl, rfl⟩

/-- C9 witness: the theorem at the concrete counter value 1. -/
theorem carregar_missing_or_invalid_empty_w :
    carregar_dados FileState.absent 1 = some (⟨false, [], []⟩, 1) ∧
    carregar_dados FileState.invalid 1 = some (⟨true, [], []⟩, 1) :=
  carregar_missing_or_invalid_empty 1

/-- C10: on both account variants, if every transaction in the log stores a
strictly positive `valor` then this still holds after any sequence of deposit
and withdraw calls (so it holds forever on accounts built by the constructors,
whose logs start empty); and the `Deposito`/`Saque` constructors store the
given amount unchanged with the direction carried by the class tag `tipo`,
never by the sign. -/
theorem log_valor_strictly_positive :
    (∀ (c : Conta) (ops : List Op),
        c.historico.transacoes.all Transacao.valorPositivo = true →
        (Conta.run c ops).historico.transacoes.all Transacao.valorPositivo = true) ∧
    (∀ (c : ContaCorrente) (ops : List Op),
        c.historico.transacoes.all Transacao.valorPositivo = true →
        (ContaCorrente.run c ops).historico.transacoes.all Transacao.valorPositivo = true) ∧
    (∀ (v : ℚ) (t : Datetime),
        (Saque v t).valor = v ∧ (Saque v t).tipo = TipoTransacao.saque ∧
        (Deposito v t).valor = v ∧ (Deposito v t).tipo = TipoTransacao.deposito) :=
  ⟨fun c ops h => conta_run_all_pos c ops h,
   fun c ops h => cc_run_all_pos c ops h,
   fun _ _ => ⟨rfl, rfl, rfl, rfl⟩⟩

/-- C10 witness: the invariant run at concrete accounts and the constructor
facts at amount 9. -/
theorem log_valor_strictly_positive_w :
    (Conta.run contaBase [Op.dep 40 1, Op.saq 70 2]).historico.transacoes.all
      Transacao.valorPositivo = true ∧
    (ContaCorrente.run contaA0 [Op.dep 40 1]).historico.transacoes.all
      Transacao.valorPositivo = true ∧
    (Saque 9 1).valor = 9 ∧ (Saque 9 1).tipo = TipoTransacao.saque ∧
    (Deposito 9 1).valor = 9 ∧ (Deposito 9 1).tipo = TipoTransacao.deposito :=
  ⟨log_valor_strictly_positive.1 contaBase [Op.dep 40 1, Op.saq 70 2] (by decide),
   log_valor_strictly_positive.2.1 contaA0 [Op.dep 40 1] (by decide),
   log_valor_strictly_positive.2.2 9 1⟩

end GoldSnake
